import Mathlib

/-!
Verification of the uModbus error-taxonomy module (`umodbus/exceptions.py`).

The module is pure: a registry mapping Modbus function codes to description
strings (`MODBUS_OP_CODES`), nine exception classes each carrying a fixed
numeric `error_code` and a fixed display text, a table `error_code_to_exception_map`
from error codes to those classes, and a decoding facet (`ModbusError.modbus_op_code`)
extracting the op code from byte 0 of the wrapped payload. We embed payloads as
`List Nat` (one entry per byte), classes as an inductive `ErrorKind`, the two
dictionaries as functions into `Option`, and Python string conversion of an
exception instance as explicit `str_of` / `repr_of` functions.
-/

namespace UModbus

/-- The nine Modbus exception classes of `exceptions.py`, in source order. -/
inductive ErrorKind where
  | IllegalFunctionError
  | IllegalDataAddressError
  | IllegalDataValueError
  | ServerDeviceFailureError
  | AcknowledgeError
  | ServerDeviceBusyError
  | MemoryParityError
  | GatewayPathUnavailableError
  | GatewayTargetDeviceFailedToRespondError
deriving DecidableEq, Repr, Fintype

open ErrorKind

/-- The `error_code` class attribute of each exception class. -/
def error_code : ErrorKind → Nat
  | IllegalFunctionError => 1
  | IllegalDataAddressError => 2
  | IllegalDataValueError => 3
  | ServerDeviceFailureError => 4
  | AcknowledgeError => 5
  | ServerDeviceBusyError => 6
  | MemoryParityError => 8
  | GatewayPathUnavailableError => 10
  | GatewayTargetDeviceFailedToRespondError => 11

/-- All nine classes, in source order. -/
def allErrorKinds : List ErrorKind :=
  [IllegalFunctionError, IllegalDataAddressError, IllegalDataValueError,
   ServerDeviceFailureError, AcknowledgeError, ServerDeviceBusyError,
   MemoryParityError, GatewayPathUnavailableError,
   GatewayTargetDeviceFailedToRespondError]

/-- The module-level dictionary `MODBUS_OP_CODES`, keyed by op code. Keys are
Python ints, so the lookup domain is all of `Int`. -/
def MODBUS_OP_CODES (code : Int) : Option String :=
  if code = 1 then some "Read Coils (1)"
  else if code = 2 then some "Read Discrete Inputs (2)"
  else if code = 3 then some "Read Holding Registers (3)"
  else if code = 4 then some "Read Input Registers (4)"
  else if code = 5 then some "Write Single Coil (5)"
  else if code = 6 then some "Write Single Register (6)"
  else if code = 7 then some "Read Exception Status (7)"
  else if code = 8 then some "Diagnostics (8)"
  else if code = 15 then some "Write Multiple Coils (15)"
  else if code = 16 then some "Write Multiple Registers (16)"
  else if code = 20 then some "Read File Record (20)"
  else if code = 21 then some "Write File Record (21)"
  else if code = 22 then some "Mask Write Register (22)"
  else if code = 23 then some "Read/Write Multiple Registers (23)"
  else if code = 24 then some "Read FIFO (24)"
  else none

/-- The keys of `MODBUS_OP_CODES`. -/
def MODBUS_OP_DOMAIN : List Int :=
  [1, 2, 3, 4, 5, 6, 7, 8, 15, 16, 20, 21, 22, 23, 24]

/-- The dictionary lookup with its `except KeyError` fallback, as performed in
the body of `ModbusError.modbus_op_code`:
`try: return MODBUS_OP_CODES[opcode] except KeyError: return f"Unknown Opcode: \x7bopcode\x7d"`. -/
def describe (code : Int) : String :=
  match MODBUS_OP_CODES code with
  | some s => s
  | none => "Unknown Opcode: " ++ toString code

/-- `opcode = int(self._payload[0]) - int(0x80)` from `ModbusError.modbus_op_code`:
ordinary integer subtraction on byte 0; `none` models the IndexError an empty
payload would raise. -/
def op_code (payload : List Nat) : Option Int :=
  match payload with
  | b0 :: _ => some ((b0 : Int) - 128)
  | [] => none

/-- The property `ModbusError.modbus_op_code`: extract the op code from byte 0
and resolve it through `MODBUS_OP_CODES` with the unknown-opcode fallback. -/
def modbus_op_code (payload : List Nat) : Option String :=
  (op_code payload).map describe

/-- The dictionary `error_code_to_exception_map`, keyed by each class's
`error_code` attribute. -/
def error_code_to_exception_map (code : Nat) : Option ErrorKind :=
  if code = 1 then some IllegalFunctionError
  else if code = 2 then some IllegalDataAddressError
  else if code = 3 then some IllegalDataValueError
  else if code = 4 then some ServerDeviceFailureError
  else if code = 5 then some AcknowledgeError
  else if code = 6 then some ServerDeviceBusyError
  else if code = 8 then some MemoryParityError
  else if code = 10 then some GatewayPathUnavailableError
  else if code = 11 then some GatewayTargetDeviceFailedToRespondError
  else none

/-- The key set of `error_code_to_exception_map`. -/
def definedErrorCodes : List Nat := [1, 2, 3, 4, 5, 6, 8, 10, 11]

/-- An exception instance: a class applied to the payload it wraps
(`ModbusError.__init__` stores the payload and nothing else). -/
structure DecodedError where
  kind : ErrorKind
  payload : List Nat
deriving DecidableEq, Repr

/-- Each class's raw docstring (`__doc__`), byte for byte, newlines and
indentation included, as the Python literal stores it. -/
def doc_string : ErrorKind → String
  | IllegalFunctionError =>
      " The function code received in the request is not an allowable action for\n    the server.\n\n    "
  | IllegalDataAddressError =>
      " The data address received in the request is not an allowable address for\n    the server.\n    "
  | IllegalDataValueError =>
      " The value contained in the request data field is not an allowable value\n    for the server.\n\n    "
  | ServerDeviceFailureError =>
      " An unrecoverable error occurred. "
  | AcknowledgeError =>
      " The server has accepted the requests and it processing it, but a long\n    duration of time will be required to do so.\n    "
  | ServerDeviceBusyError =>
      " The server is engaged in a long-duration program command. "
  | MemoryParityError =>
      " The server attempted to read record file, but detected a parity error\n    in memory.\n\n    "
  | GatewayPathUnavailableError =>
      " The gateway is probably misconfigured or overloaded. "
  | GatewayTargetDeviceFailedToRespondError =>
      " Didn\x27t get a response from target device. "

/-- The class name of each variant, for Python's default `repr`. -/
def class_name : ErrorKind → String
  | IllegalFunctionError => "IllegalFunctionError"
  | IllegalDataAddressError => "IllegalDataAddressError"
  | IllegalDataValueError => "IllegalDataValueError"
  | ServerDeviceFailureError => "ServerDeviceFailureError"
  | AcknowledgeError => "AcknowledgeError"
  | ServerDeviceBusyError => "ServerDeviceBusyError"
  | MemoryParityError => "MemoryParityError"
  | GatewayPathUnavailableError => "GatewayPathUnavailableError"
  | GatewayTargetDeviceFailedToRespondError => "GatewayTargetDeviceFailedToRespondError"

/-- Lowercase hexadecimal digit, as CPython renders `\xHH` escapes. -/
def hexDigit (n : Nat) : Char :=
  if n < 10 then Char.ofNat (48 + n) else Char.ofNat (87 + n)

/-- Two lowercase hex digits of a byte. -/
def hex2 (b : Nat) : String :=
  String.mk [hexDigit (b / 16 % 16), hexDigit (b % 16)]

/-- One byte of CPython's `bytes.__repr__`: the quote character and the
backslash are backslash-escaped, tab, newline and carriage return become
`\t`, `\n`, `\r`, other non-printable bytes become `\xHH`, printable ASCII
stands for itself. -/
def byte_escape (quote : Nat) (b : Nat) : String :=
  if b = quote ∨ b = 92 then String.mk [Char.ofNat 92, Char.ofNat b]
  else if b = 9 then String.mk [Char.ofNat 92, Char.ofNat 116]
  else if b = 10 then String.mk [Char.ofNat 92, Char.ofNat 110]
  else if b = 13 then String.mk [Char.ofNat 92, Char.ofNat 114]
  else if b < 32 ∨ 127 ≤ b then String.mk [Char.ofNat 92, Char.ofNat 120] ++ hex2 b
  else String.singleton (Char.ofNat b)

/-- CPython's `repr` of a `bytes` object (which is also its `str`, since
`bytes.__str__` is its repr): `b` then the quoted escaped bytes; the quote
is a double quote exactly when the bytes hold a single quote and no double
quote, else a single quote. -/
def bytes_repr (bs : List Nat) : String :=
  let quote : Nat := if 39 ∈ bs ∧ 34 ∉ bs then 34 else 39
  "b" ++ String.singleton (Char.ofNat quote) ++
    String.join (bs.map (byte_escape quote)) ++ String.singleton (Char.ofNat quote)

/-- What Python `str()` returns on an instance. Six classes override
`__str__` (two with a literal, four returning `self.__doc__`); the other
three inherit `Exception.__str__`. `BaseException.__new__` stores the
constructor argument in `args`, so the inherited `__str__` over the
one-element args tuple returns `str(payload)`, the payload's bytes repr —
a payload-dependent string. -/
def str_of (e : DecodedError) : String :=
  match e.kind with
  | IllegalFunctionError => "Function code is not an allowable action for the server."
  | IllegalDataAddressError => doc_string IllegalDataAddressError
  | IllegalDataValueError => doc_string IllegalDataValueError
  | ServerDeviceFailureError => "An unrecoverable error occurred."
  | AcknowledgeError => doc_string AcknowledgeError
  | ServerDeviceBusyError => doc_string ServerDeviceBusyError
  | _ => bytes_repr e.payload

/-- What Python `repr()` returns on an instance. Three classes override
`__repr__` to return `self.__doc__`; the rest inherit
`BaseException.__repr__`, which with the one-element args tuple stored by
`BaseException.__new__` renders as `ClassName(repr(payload))`. -/
def repr_of (e : DecodedError) : String :=
  match e.kind with
  | MemoryParityError => doc_string MemoryParityError
  | GatewayPathUnavailableError => doc_string GatewayPathUnavailableError
  | GatewayTargetDeviceFailedToRespondError => doc_string GatewayTargetDeviceFailedToRespondError
  | k => class_name k ++ "(" ++ bytes_repr e.payload ++ ")"

/-- The fixed message table of spec section 4.3, following the spec's words;
kept separate from the source-derived `str_of`/`repr_of` so the two can be
compared. -/
def specMessage : ErrorKind → String
  | IllegalFunctionError =>
      "Function code is not an allowable action for the server."
  | IllegalDataAddressError =>
      "The data address received in the request is not an allowable address for the server."
  | IllegalDataValueError =>
      "The value contained in the request data field is not an allowable value for the server."
  | ServerDeviceFailureError =>
      "An unrecoverable error occurred."
  | AcknowledgeError =>
      "The server has accepted the request and is processing it, but a long duration of time will be required to do so."
  | ServerDeviceBusyError =>
      "The server is engaged in a long-duration program command."
  | MemoryParityError =>
      "The server attempted to read record file, but detected a parity error in memory."
  | GatewayPathUnavailableError =>
      "The gateway is probably misconfigured or overloaded."
  | GatewayTargetDeviceFailedToRespondError =>
      "Did not get a response from the target device."

/-- The decode-failure taxonomy of spec section 7. -/
inductive DecodeFailure where
  | MalformedPayload
  | UnrecognizedErrorCode (code : Nat)
deriving DecidableEq, Repr

/-- Modelled from the spec: `ErrorFactory.from_payload` (section 4.4) is not
present under `src/` — only its lookup table `error_code_to_exception_map`
is — so the factory follows the spec's algorithm: validate payload length at
least 2 (else `MalformedPayload`); read the error code from byte 1; resolve it
through `error_code_to_exception_map` (from the source); on a hit wrap the
payload in that class, on a miss fail with `UnrecognizedErrorCode`. -/
def from_payload (payload : List Nat) : Except DecodeFailure DecodedError :=
  match payload with
  | b0 :: b1 :: rest =>
    match error_code_to_exception_map b1 with
    | some k => .ok ⟨k, b0 :: b1 :: rest⟩
    | none => .error (.UnrecognizedErrorCode b1)
  | _ => .error .MalformedPayload

/-! ## Theorems -/

/-- Claim C2: `describe` (the lookup `modbus_op_code` performs) is a total pure
function on integers: on each of the fifteen defined op codes it returns the
exact canonical description string, and on every other integer, negative
values included, it returns the fallback `"Unknown Opcode: \x7bcode\x7d"`
rather than failing. -/
theorem describe_total :
    describe 1 = "Read Coils (1)" ∧ describe 2 = "Read Discrete Inputs (2)" ∧
    describe 3 = "Read Holding Registers (3)" ∧ describe 4 = "Read Input Registers (4)" ∧
    describe 5 = "Write Single Coil (5)" ∧ describe 6 = "Write Single Register (6)" ∧
    describe 7 = "Read Exception Status (7)" ∧ describe 8 = "Diagnostics (8)" ∧
    describe 15 = "Write Multiple Coils (15)" ∧ describe 16 = "Write Multiple Registers (16)" ∧
    describe 20 = "Read File Record (20)" ∧ describe 21 = "Write File Record (21)" ∧
    describe 22 = "Mask Write Register (22)" ∧ describe 23 = "Read/Write Multiple Registers (23)" ∧
    describe 24 = "Read FIFO (24)" ∧
    ∀ code : Int, code ∉ MODBUS_OP_DOMAIN →
      describe code = "Unknown Opcode: " ++ toString code := by
  refine ⟨rfl, rfl, rfl, rfl, rfl, rfl, rfl, rfl, rfl, rfl, rfl, rfl, rfl, rfl, rfl, ?_⟩
  intro code h
  simp only [List.mem_cons, MODBUS_OP_DOMAIN, List.not_mem_nil, or_false] at h
  push_neg at h
  obtain ⟨h1, h2, h3, h4, h5, h6, h7, h8, h9, h10, h11, h12, h13, h14, h15⟩ := h
  simp [describe, MODBUS_OP_CODES, h1, h2, h3, h4, h5, h6, h7, h8, h9, h10, h11,
    h12, h13, h14, h15]

/-- Claim C3: `from_payload` on a payload of length 0 or 1 fails with the
explicit `MalformedPayload` error, returned to the caller as a value, never a
silent default and never an out-of-bounds access. -/
theorem from_payload_short_malformed :
    from_payload [] = .error .MalformedPayload ∧
    ∀ b : Nat, from_payload [b] = .error .MalformedPayload :=
  ⟨rfl, fun _ => rfl⟩

/-- Claim C4: for every payload of length at least 2 whose byte 1 is not one of
the nine defined error codes, `from_payload` fails with the named error
`UnrecognizedErrorCode(code)` — a value of the decode-failure taxonomy, not an
internal lookup fault. -/
theorem from_payload_unrecognized (b0 b1 : Nat) (rest : List Nat)
    (h : b1 ∉ definedErrorCodes) :
    from_payload (b0 :: b1 :: rest) = .error (.UnrecognizedErrorCode b1) := by
  simp only [definedErrorCodes, List.mem_cons, List.not_mem_nil, or_false] at h
  push_neg at h
  obtain ⟨h1, h2, h3, h4, h5, h6, h7, h8, h9⟩ := h
  simp [from_payload, error_code_to_exception_map, h1, h2, h3, h4, h5, h6, h7, h8, h9]

/-- Witness for C4 at the spec's own scenario: payload `[0x81, 0x07]` fails
with `UnrecognizedErrorCode(7)`. -/
theorem from_payload_unrecognized_witness :
    (7 ∉ definedErrorCodes) ∧
    from_payload [129, 7] = .error (.UnrecognizedErrorCode 7) :=
  ⟨by decide, from_payload_unrecognized 129 7 [] (by decide)⟩

/-- Claim C6: the taxonomy consists of exactly nine variants whose error codes
are 1, 2, 3, 4, 5, 6, 8, 10, 11 in source order, and no variant carries error
code 7 or 9. -/
theorem error_kind_taxonomy :
    allErrorKinds.length = 9 ∧ allErrorKinds.Nodup ∧
    (∀ k : ErrorKind, k ∈ allErrorKinds) ∧
    allErrorKinds.map error_code = [1, 2, 3, 4, 5, 6, 8, 10, 11] ∧
    allErrorKinds.filter (fun k => error_code k == 7 || error_code k == 9) = [] := by
  refine ⟨rfl, by decide, ?_, rfl, rfl⟩
  intro k
  cases k <;> simp [allErrorKinds]

/-- Claim C7: on any payload of length at least 1, the op code is exactly
byte 0 minus 0x80 under ordinary (possibly negative, unvalidated) integer
subtraction, and the op-code description is `describe` of that value. -/
theorem op_code_from_byte0 (b : Nat) (rest : List Nat) :
    op_code (b :: rest) = some ((b : Int) - 128) ∧
    modbus_op_code (b :: rest) = some (describe ((b : Int) - 128)) :=
  ⟨rfl, rfl⟩

/-- Claim C8: the payload `[0x83, 0x02]` decodes to the IllegalDataAddress
variant, with error code 2, op code 3, and op-code description
`"Read Holding Registers (3)"`. -/
theorem decode_x83_x02 :
    from_payload [0x83, 0x02] = .ok ⟨ErrorKind.IllegalDataAddressError, [0x83, 0x02]⟩ ∧
    error_code ErrorKind.IllegalDataAddressError = 2 ∧
    op_code [0x83, 0x02] = some 3 ∧
    modbus_op_code [0x83, 0x02] = some "Read Holding Registers (3)" :=
  ⟨rfl, rfl, rfl, rfl⟩

/-- Claim C9: the op-code description reads only byte 0: two payloads with the
same first byte yield the same description, whatever their lengths or
remaining bytes. -/
theorem modbus_op_code_head_only (b : Nat) (r1 r2 : List Nat) :
    modbus_op_code (b :: r1) = modbus_op_code (b :: r2) :=
  rfl

/-- Claim C10: `error_code_to_exception_map` is internally consistent: its key
set is exactly the nine defined error codes, each key maps to the class whose
`error_code` attribute equals that key, and `error_code` is injective on the
classes, so the table is a bijection between the nine codes and the nine
variants. -/
theorem error_code_map_consistent :
    (∀ c : Nat, c ∈ definedErrorCodes →
        ∃ k, error_code_to_exception_map c = some k ∧ error_code k = c) ∧
    (∀ c : Nat, c ∉ definedErrorCodes → error_code_to_exception_map c = none) ∧
    (∀ k1 k2 : ErrorKind, error_code k1 = error_code k2 → k1 = k2) := by
  refine ⟨?_, ?_, ?_⟩
  · intro c hc
    fin_cases hc <;> exact ⟨_, rfl, rfl⟩
  · intro c hc
    simp only [definedErrorCodes, List.mem_cons, List.not_mem_nil, or_false] at hc
    push_neg at hc
    obtain ⟨h1, h2, h3, h4, h5, h6, h7, h8, h9⟩ := hc
    simp [error_code_to_exception_map, h1, h2, h3, h4, h5, h6, h7, h8, h9]
  · decide

/-- Claim C1, counterexample: at payload `[0x81, 0x05]` the table resolves to
the Acknowledge variant with error code 5, but the variant's display text —
its `str()`, the typo-carrying docstring, or its `repr()`, the default
`AcknowledgeError(b\x27\x5cx81\x5cx05\x27)` — is not the message the table of
spec section 4.3 gives for Acknowledge, so the claim as stated fails. -/
theorem from_payload_spec_message_cex :
    from_payload [129, 5] = .ok ⟨ErrorKind.AcknowledgeError, [129, 5]⟩ ∧
    error_code ErrorKind.AcknowledgeError = 5 ∧
    str_of ⟨ErrorKind.AcknowledgeError, [129, 5]⟩ = doc_string ErrorKind.AcknowledgeError ∧
    str_of ⟨ErrorKind.AcknowledgeError, [129, 5]⟩ ≠ specMessage ErrorKind.AcknowledgeError ∧
    repr_of ⟨ErrorKind.AcknowledgeError, [129, 5]⟩ = "AcknowledgeError(b\x27\\x81\\x05\x27)" ∧
    repr_of ⟨ErrorKind.AcknowledgeError, [129, 5]⟩ ≠ specMessage ErrorKind.AcknowledgeError :=
  ⟨rfl, rfl, rfl, by decide, by decide, by decide⟩

/-- Claim C1 as amended: for every valid op byte and every defined error code,
`from_payload [0x80 + op, code]` resolves through the table to the variant
whose `error_code` equals that code, wrapping the payload; the variant's
display text is the source's own fixed text (see C5), not the table of spec
section 4.3. -/
theorem from_payload_defined_codes (op code : Nat) (hop : op ≤ 127)
    (hcode : code ∈ definedErrorCodes) :
    ∃ k : ErrorKind, from_payload [128 + op, code] = .ok ⟨k, [128 + op, code]⟩ ∧
      error_code k = code := by
  fin_cases hcode <;> exact ⟨_, rfl, rfl⟩

/-- Witness for the amended C1 at op 3, code 2. -/
theorem from_payload_defined_codes_witness :
    3 ≤ 127 ∧ (2 ∈ definedErrorCodes) ∧
    ∃ k : ErrorKind, from_payload [131, 2] = .ok ⟨k, [131, 2]⟩ ∧ error_code k = 2 :=
  ⟨by decide, by decide, from_payload_defined_codes 3 2 (by decide) (by decide)⟩

/-- Claim C5, counterexample: there is no single uniform message accessor
returning the table of spec section 4.3. Concretely, on an instance wrapping
`[0x88, 0x08]`, `str()` of the MemoryParity variant (which only overrides
`__repr__`) is the default rendering of the stored payload,
`b\x27\x5cx88\x5cx08\x27` — payload-dependent, as wrapping `[0x88, 0x09]`
shows — not its table message; `repr()` of the Acknowledge variant wrapping
`[0x85, 0x05]` (which only overrides `__str__`) is the default
`AcknowledgeError(b\x27\x5cx85\x5cx05\x27)`; and the fixed texts the
overridden hooks do return differ from the spec table for Acknowledge and
GatewayTargetDeviceFailedToRespond. -/
theorem message_uniform_cex :
    str_of ⟨ErrorKind.MemoryParityError, [136, 8]⟩ = "b\x27\\x88\\x08\x27" ∧
    str_of ⟨ErrorKind.MemoryParityError, [136, 8]⟩ ≠
      str_of ⟨ErrorKind.MemoryParityError, [136, 9]⟩ ∧
    str_of ⟨ErrorKind.MemoryParityError, [136, 8]⟩ ≠ specMessage ErrorKind.MemoryParityError ∧
    repr_of ⟨ErrorKind.AcknowledgeError, [133, 5]⟩ = "AcknowledgeError(b\x27\\x85\\x05\x27)" ∧
    str_of ⟨ErrorKind.AcknowledgeError, [133, 5]⟩ ≠ specMessage ErrorKind.AcknowledgeError ∧
    repr_of ⟨ErrorKind.GatewayTargetDeviceFailedToRespondError, [139, 11]⟩ ≠
      specMessage ErrorKind.GatewayTargetDeviceFailedToRespondError :=
  ⟨rfl, by decide, by decide, rfl, by decide, by decide⟩

/-- Claim C5 as amended: every variant carries a fixed display text that does
not depend on the wrapped payload, but it is surfaced by two different hooks —
`__str__` for the six variants with error codes 1 to 6 and `__repr__` for the
three with codes 8, 10 and 11 — while the hook a variant does not override
falls back to Python's default over the stored args tuple: `str()` of the
three code-8/10/11 variants is the payload's bytes repr (payload-dependent),
and the texts the overridden hooks return are the source's literals and raw
docstrings, which differ in wording from the table of spec section 4.3 for
Acknowledge and GatewayTargetDeviceFailedToRespond and in whitespace for the
docstring-derived ones. -/
theorem message_surface (p : List Nat) :
    str_of ⟨ErrorKind.IllegalFunctionError, p⟩ =
      "Function code is not an allowable action for the server." ∧
    str_of ⟨ErrorKind.IllegalDataAddressError, p⟩ =
      " The data address received in the request is not an allowable address for\n    the server.\n    " ∧
    str_of ⟨ErrorKind.IllegalDataValueError, p⟩ =
      " The value contained in the request data field is not an allowable value\n    for the server.\n\n    " ∧
    str_of ⟨ErrorKind.ServerDeviceFailureError, p⟩ =
      "An unrecoverable error occurred." ∧
    str_of ⟨ErrorKind.AcknowledgeError, p⟩ =
      " The server has accepted the requests and it processing it, but a long\n    duration of time will be required to do so.\n    " ∧
    str_of ⟨ErrorKind.ServerDeviceBusyError, p⟩ =
      " The server is engaged in a long-duration program command. " ∧
    repr_of ⟨ErrorKind.MemoryParityError, p⟩ =
      " The server attempted to read record file, but detected a parity error\n    in memory.\n\n    " ∧
    repr_of ⟨ErrorKind.GatewayPathUnavailableError, p⟩ =
      " The gateway is probably misconfigured or overloaded. " ∧
    repr_of ⟨ErrorKind.GatewayTargetDeviceFailedToRespondError, p⟩ =
      " Didn\x27t get a response from target device. " ∧
    str_of ⟨ErrorKind.MemoryParityError, p⟩ = bytes_repr p ∧
    str_of ⟨ErrorKind.GatewayPathUnavailableError, p⟩ = bytes_repr p ∧
    str_of ⟨ErrorKind.GatewayTargetDeviceFailedToRespondError, p⟩ = bytes_repr p :=
  ⟨rfl, rfl, rfl, rfl, rfl, rfl, rfl, rfl, rfl, rfl, rfl, rfl⟩

end UModbus
